import Mathlib

/-!
# SceneManager.cpp : texture registry, material catalog, shader state pusher

A shallow embedding of `Source/SceneManager.cpp`.

* The object state (`m_pShaderManager`, `m_textureIDs`, `m_loadedTextures`,
  `m_objectMaterials`) is the structure `SceneManager`.
* Every call the class makes on a collaborator (the `ShaderManager` uniform
  setters, the `ShapeMeshes` draw calls, OpenGL, stb_image) is recorded, in
  order, as an `Event` in the `trace` of the `World`.
* What the collaborators answer (the image decoder, the texture names handed out
  by `glGenTextures`, the contents of an uninitialised local) is the `Env`.
* Undefined behaviour (a call through a NULL `m_pShaderManager`, an access
  outside `m_textureIDs`) is the error side of `Except Fault`.
* `float` values are elements of a field `R`; the theorems about matrices are
  stated over the real numbers.
-/

/-! ## glm -/

namespace glm

/-- The type `glm::vec2`. -/
structure vec2 (R : Type) where
  x : R
  y : R

/-- The type `glm::vec3`. -/
structure vec3 (R : Type) where
  x : R
  y : R
  z : R

/-- The type `glm::vec4` (components `r g b a`). -/
structure vec4 (R : Type) where
  r : R
  g : R
  b : R
  a : R

/-- The type `glm::mat4`; entry `m i j` is row `i`, column `j` (glm stores `m[j][i]`). -/
abbrev mat4 (R : Type) := Matrix (Fin 4) (Fin 4) R

/-- The `<cmath>` functions glm calls. -/
structure FloatMath (R : Type) where
  cos : R → R
  sin : R → R
  sqrt : R → R

variable {R : Type} [Field R]

/-- The function `glm::radians`: `degrees * 0.01745329251994329576923690768489`. -/
def radians (degrees : R) : R :=
  degrees * 0.01745329251994329576923690768489

/-- The function `glm::dot` on `vec3`. -/
def dot (a b : vec3 R) : R :=
  a.x * b.x + a.y * b.y + a.z * b.z

/-- The function `glm::inversesqrt`. -/
def inversesqrt (fm : FloatMath R) (x : R) : R :=
  1 / fm.sqrt x

/-- The function `glm::normalize`: `v * inversesqrt(dot(v, v))`. -/
def normalize (fm : FloatMath R) (v : vec3 R) : vec3 R :=
  ⟨v.x * inversesqrt fm (dot v v), v.y * inversesqrt fm (dot v v), v.z * inversesqrt fm (dot v v)⟩

/-- The function `glm::scale(v)` of `glm/gtx/transform.hpp`. -/
def scale (v : vec3 R) : mat4 R :=
  !![v.x, 0, 0, 0;
     0, v.y, 0, 0;
     0, 0, v.z, 0;
     0, 0, 0, 1]

/-- The function `glm::translate(v)` of `glm/gtx/transform.hpp`. -/
def translate (v : vec3 R) : mat4 R :=
  !![1, 0, 0, v.x;
     0, 1, 0, v.y;
     0, 0, 1, v.z;
     0, 0, 0, 1]

/-- The function `glm::rotate(angle, v)` of `glm/gtx/transform.hpp`, that is
`rotate(mat4(1), angle, v)`: with `c = cos angle`, `s = sin angle`,
`axis = normalize v` and `temp = (1 - c) * axis`, glm fills
`Rotate[0][0] = c + temp[0] * axis[0]`, `Rotate[0][1] = temp[0] * axis[1] + s * axis[2]`, ...
(`Rotate[j][i]` is row `i`, column `j`). -/
def rotate (fm : FloatMath R) (angle : R) (v : vec3 R) : mat4 R :=
  let c := fm.cos angle
  let s := fm.sin angle
  let axis := normalize fm v
  let temp : vec3 R := ⟨(1 - c) * axis.x, (1 - c) * axis.y, (1 - c) * axis.z⟩
  !![c + temp.x * axis.x, temp.y * axis.x - s * axis.z, temp.z * axis.x + s * axis.y, 0;
     temp.x * axis.y + s * axis.z, c + temp.y * axis.y, temp.z * axis.y - s * axis.x, 0;
     temp.x * axis.z - s * axis.y, temp.y * axis.z + s * axis.x, c + temp.z * axis.z, 0;
     0, 0, 0, 1]

end glm

/-! ## Data model -/

/-- Undefined behaviour the model makes explicit. -/
inductive Fault
  /-- A member call through a NULL pointer (`m_pShaderManager->...`). -/
  | nullPointerDereference
  /-- An access `m_textureIDs[i]` outside the array. -/
  | outOfBounds
  /-- A loop of the model used up its iteration budget (shown never to happen). -/
  | loopBudget
deriving DecidableEq, Repr

instance instDecidableEqExcept {ε α : Type} [DecidableEq ε] [DecidableEq α] :
    DecidableEq (Except ε α) := fun a b =>
  match a, b with
  | .ok x, .ok y => if h : x = y then isTrue (by rw [h]) else isFalse (fun h2 => h (by cases h2; rfl))
  | .error x, .error y =>
    if h : x = y then isTrue (by rw [h]) else isFalse (fun h2 => h (by cases h2; rfl))
  | .ok _, .error _ => isFalse (fun h => by cases h)
  | .error _, .ok _ => isFalse (fun h => by cases h)

/-- Modelled from the spec: the capacity of the array `m_textureIDs`, declared in
`SceneManager.h` (not under src/); the spec says the registry holds at most 16
entries and the comment of `BindGLTextures` says there are up to 16 slots. -/
def MAX_TEXTURES : Nat := 16

/-- Modelled from the spec: the struct `TEXTURE_INFO` of `SceneManager.h`, a
`GLuint ID` and a `std::string tag`. -/
structure TEXTURE_INFO where
  ID : Nat
  tag : String
deriving DecidableEq, Repr

/-- Modelled from the spec: the struct `OBJECT_MATERIAL` of `SceneManager.h` (not
under src/), a plain aggregate of the members the spec lists, for which it gives
no default values. -/
structure OBJECT_MATERIAL (R : Type) where
  ambientColor : glm.vec3 R
  ambientStrength : R
  diffuseColor : glm.vec3 R
  specularColor : glm.vec3 R
  shininess : R
  tag : String

/-- Modelled from the spec: the class `ShaderManager` (not under src/), seen
only through the pointer `m_pShaderManager`. -/
structure ShaderManager where
  m_programID : Nat
deriving DecidableEq, Repr

/-- The data members of the class `SceneManager`. `m_basicMeshes` is allocated
by the constructor and never NULL while the object lives, so it is not a field. -/
structure SceneManager (R : Type) where
  /-- The pointer `m_pShaderManager`; `none` is NULL. -/
  m_pShaderManager : Option ShaderManager
  /-- The array `TEXTURE_INFO m_textureIDs[MAX_TEXTURES]`. -/
  m_textureIDs : List TEXTURE_INFO
  /-- The counter `int m_loadedTextures` (set to 0, then only incremented). -/
  m_loadedTextures : Nat
  /-- The vector `std::vector<OBJECT_MATERIAL> m_objectMaterials`. -/
  m_objectMaterials : List (OBJECT_MATERIAL R)

/-- A decoded image as `stbi_load` reports it. -/
structure Image where
  width : Int
  height : Int
  colorChannels : Int
deriving DecidableEq, Repr

/-- The shapes of `ShapeMeshes`. -/
inductive Mesh
  | plane
  | sphere
  | cylinder
deriving DecidableEq, Repr

/-- A call on a collaborator. -/
inductive Event (R : Type)
  | setMat4Value (name : String) (value : glm.mat4 R)
  | setVec4Value (name : String) (value : glm.vec4 R)
  | setVec3Value (name : String) (value : glm.vec3 R)
  | setVec2Value (name : String) (value : glm.vec2 R)
  | setFloatValue (name : String) (value : R)
  | setIntValue (name : String) (value : Int)
  | setBoolValue (name : String) (value : Bool)
  | setSampler2DValue (name : String) (value : Int)
  | LoadMesh (shape : Mesh)
  | DrawMesh (shape : Mesh)
  | stbi_set_flip_vertically_on_load (flag : Bool)
  | stbi_image_free
  | glGenTextures (id : Nat)
  | glBindTexture (target : Nat) (id : Nat)
  | glTexParameteri (target : Nat) (pname : Nat) (param : Nat)
  | glTexImage2D (target : Nat) (level : Int) (internalformat : Nat) (width : Int)
      (height : Int) (border : Int) (format : Nat) (type : Nat)
  | glGenerateMipmap (target : Nat)
  | glActiveTexture (texture : Nat)
  | glDeleteTextures (id : Nat)

/-- What the collaborators answer. -/
structure Env (R : Type) where
  /-- The `<cmath>` functions behind glm. -/
  fm : glm.FloatMath R
  /-- The result of `stbi_load(filename, ...)`: `none` is the NULL pointer. -/
  stbi_load : String → Option Image
  /-- The name the `k`-th call of `glGenTextures` writes to `textureID`. -/
  glGenTextures : Nat → Nat
  /-- The contents of the `k`-th `OBJECT_MATERIAL` local declared without an
  initialiser (`OBJECT_MATERIAL material;`): C++ leaves its `float` members
  indeterminate. -/
  indeterminate : Nat → OBJECT_MATERIAL R

/-- The object together with the record of its calls. -/
structure World (R : Type) where
  /-- The `SceneManager` object. -/
  self : SceneManager R
  /-- The calls made on collaborators so far, oldest first. -/
  trace : List (Event R)
  /-- How many times `glGenTextures` has been called. -/
  genCalls : Nat
  /-- How many uninitialised `OBJECT_MATERIAL` locals have been created. -/
  locals : Nat

/-- The OpenGL enumerants used by the file (values of `glad.h`). -/
def GL_TEXTURE_2D : Nat := 0x0DE1
def GL_TEXTURE_WRAP_S : Nat := 0x2802
def GL_TEXTURE_WRAP_T : Nat := 0x2803
def GL_REPEAT : Nat := 0x2901
def GL_TEXTURE_MIN_FILTER : Nat := 0x2801
def GL_TEXTURE_MAG_FILTER : Nat := 0x2800
def GL_LINEAR : Nat := 0x2601
def GL_RGB8 : Nat := 0x8051
def GL_RGB : Nat := 0x1907
def GL_RGBA8 : Nat := 0x8058
def GL_RGBA : Nat := 0x1908
def GL_UNSIGNED_BYTE : Nat := 0x1401
def GL_TEXTURE0 : Nat := 0x84C0

/-- The global uniform names of the anonymous namespace. -/
def g_ModelName : String := "model"
def g_ColorValueName : String := "objectColor"
def g_TextureValueName : String := "objectTexture"
def g_UseTextureName : String := "bUseTexture"
def g_UseLightingName : String := "bUseLighting"
def g_ViewPosName : String := "viewPosition"
def g_UVScaleName : String := "UVscale"

/-- The conversion of a `GLuint` to `int` done by `int textureID = ....ID`:
the value modulo `2^32`, read as two's complement (what C++20 prescribes and
what the compilers did before). -/
def GLuint_to_int (id : Nat) : Int :=
  if id % 2 ^ 32 < 2 ^ 31 then ((id % 2 ^ 32 : Nat) : Int) else ((id % 2 ^ 32 : Nat) : Int) - 2 ^ 32

namespace World

variable {R : Type}

/-- Append calls to the trace. -/
def emit (w : World R) (es : List (Event R)) : World R :=
  { w with trace := w.trace ++ es }

end World

namespace SceneManager

variable {R : Type}

/-- The constructor `SceneManager::SceneManager(ShaderManager*)`. The unused
array slots hold default-constructed `TEXTURE_INFO`s, which are never read
before they are written. -/
def new (pShaderManager : Option ShaderManager) : SceneManager R :=
  { m_pShaderManager := pShaderManager
    m_textureIDs := List.replicate MAX_TEXTURES ⟨0, ""⟩
    m_loadedTextures := 0
    m_objectMaterials := [] }

/-- The loop of `FindTextureID`, on the locals `textureID`, `index`, `bFound`:
`while ((index < m_loadedTextures) && (bFound == false))`. -/
def FindTextureID.loop (st : SceneManager R) (tag : String) :
    Nat → Int → Nat → Bool → Except Fault Int
  | 0, _, _, _ => .error .loopBudget
  | budget + 1, textureID, index, bFound =>
    if index < st.m_loadedTextures ∧ bFound = false then
      match st.m_textureIDs[index]? with
      | none => .error .outOfBounds
      | some e =>
        if e.tag = tag then
          FindTextureID.loop st tag budget (GLuint_to_int e.ID) index true
        else
          FindTextureID.loop st tag budget textureID (index + 1) bFound
    else .ok textureID

/-- The method `SceneManager::FindTextureID`. -/
def FindTextureID (st : SceneManager R) (tag : String) : Except Fault Int :=
  FindTextureID.loop st tag (st.m_loadedTextures + 2) (-1) 0 false

/-- The loop of `FindTextureSlot`, on the locals `textureSlot`, `index`, `bFound`:
`while ((index < m_loadedTextures) && (bFound == false))`. -/
def FindTextureSlot.loop (st : SceneManager R) (tag : String) :
    Nat → Int → Nat → Bool → Except Fault Int
  | 0, _, _, _ => .error .loopBudget
  | budget + 1, textureSlot, index, bFound =>
    if index < st.m_loadedTextures ∧ bFound = false then
      match st.m_textureIDs[index]? with
      | none => .error .outOfBounds
      | some e =>
        if e.tag = tag then
          FindTextureSlot.loop st tag budget (index : Int) index true
        else
          FindTextureSlot.loop st tag budget textureSlot (index + 1) bFound
    else .ok textureSlot

/-- The method `SceneManager::FindTextureSlot`. -/
def FindTextureSlot (st : SceneManager R) (tag : String) : Except Fault Int :=
  FindTextureSlot.loop st tag (st.m_loadedTextures + 2) (-1) 0 false

/-- The loop of `FindMaterial`, on the locals `index`, `bFound` and the reference
`material`: `while ((index < m_objectMaterials.size()) && (bFound == false))`.
A match copies the five property members, not the tag. -/
def FindMaterial.loop (st : SceneManager R) (tag : String) :
    Nat → Nat → Bool → OBJECT_MATERIAL R → Except Fault (OBJECT_MATERIAL R)
  | 0, _, _, _ => .error .loopBudget
  | budget + 1, index, bFound, material =>
    if h : index < st.m_objectMaterials.length then
      if bFound = false then
        if st.m_objectMaterials[index].tag = tag then
          FindMaterial.loop st tag budget index true
            { material with
              ambientColor := st.m_objectMaterials[index].ambientColor
              ambientStrength := st.m_objectMaterials[index].ambientStrength
              diffuseColor := st.m_objectMaterials[index].diffuseColor
              specularColor := st.m_objectMaterials[index].specularColor
              shininess := st.m_objectMaterials[index].shininess }
        else FindMaterial.loop st tag budget (index + 1) bFound material
      else .ok material
    else .ok material

/-- The method `SceneManager::FindMaterial(tag, material)`: the returned pair is
the `bool` result and the final contents of the reference `material`. -/
def FindMaterial (st : SceneManager R) (tag : String) (material : OBJECT_MATERIAL R) :
    Except Fault (Bool × OBJECT_MATERIAL R) :=
  if st.m_objectMaterials.length = 0 then .ok (false, material)
  else do
    let material ← FindMaterial.loop st tag (st.m_objectMaterials.length + 2) 0 false material
    .ok (true, material)

/-- A call `m_pShaderManager->...`: undefined when the pointer is NULL. -/
def viaShaderManager (call : Event R) (w : World R) : Except Fault (World R) :=
  match w.self.m_pShaderManager with
  | none => .error .nullPointerDereference
  | some _ => .ok (w.emit [call])

/-- The method `SceneManager::CreateGLTexture(filename, tag)`. `registerTexture`
is the part of the body that follows the upload of a 3- or 4-channel image:
mipmaps, `stbi_image_free`, unbind, then the two writes to
`m_textureIDs[m_loadedTextures]` and `m_loadedTextures++`. -/
def CreateGLTexture (env : Env R) (filename : String) (tag : String) (w : World R) :
    Except Fault (Bool × World R) :=
  let w := w.emit [.stbi_set_flip_vertically_on_load true]
  match env.stbi_load filename with
  | some image =>
    let textureID := env.glGenTextures w.genCalls % 2 ^ 32
    let w := { w with genCalls := w.genCalls + 1 }
    let w := w.emit [.glGenTextures textureID, .glBindTexture GL_TEXTURE_2D textureID,
      .glTexParameteri GL_TEXTURE_2D GL_TEXTURE_WRAP_S GL_REPEAT,
      .glTexParameteri GL_TEXTURE_2D GL_TEXTURE_WRAP_T GL_REPEAT,
      .glTexParameteri GL_TEXTURE_2D GL_TEXTURE_MIN_FILTER GL_LINEAR,
      .glTexParameteri GL_TEXTURE_2D GL_TEXTURE_MAG_FILTER GL_LINEAR]
    let registerTexture : World R → Except Fault (Bool × World R) := fun w =>
      let w := w.emit [.glGenerateMipmap GL_TEXTURE_2D, .stbi_image_free,
        .glBindTexture GL_TEXTURE_2D 0]
      if w.self.m_loadedTextures < w.self.m_textureIDs.length then
        .ok (true, { w with self := { w.self with
          m_textureIDs := w.self.m_textureIDs.set w.self.m_loadedTextures ⟨textureID, tag⟩
          m_loadedTextures := w.self.m_loadedTextures + 1 } })
      else .error .outOfBounds
    if image.colorChannels = 3 then
      registerTexture (w.emit [.glTexImage2D GL_TEXTURE_2D 0 GL_RGB8 image.width image.height 0
        GL_RGB GL_UNSIGNED_BYTE])
    else if image.colorChannels = 4 then
      registerTexture (w.emit [.glTexImage2D GL_TEXTURE_2D 0 GL_RGBA8 image.width image.height 0
        GL_RGBA GL_UNSIGNED_BYTE])
    else
      .ok (false, w)
  | none => .ok (false, w)

/-- The loop of `BindGLTextures`: `for (int i = 0; i < m_loadedTextures; i++)`. -/
def BindGLTextures.loop : Nat → Nat → World R → Except Fault (World R)
  | 0, _, _ => .error .loopBudget
  | budget + 1, i, w =>
    if i < w.self.m_loadedTextures then
      match w.self.m_textureIDs[i]? with
      | none => .error .outOfBounds
      | some e =>
        BindGLTextures.loop budget (i + 1)
          (w.emit [.glActiveTexture (GL_TEXTURE0 + i), .glBindTexture GL_TEXTURE_2D e.ID])
    else .ok w

/-- The method `SceneManager::BindGLTextures`. -/
def BindGLTextures (w : World R) : Except Fault (World R) :=
  BindGLTextures.loop (w.self.m_loadedTextures + 1) 0 w

section Pusher

variable [Field R]

/-- The method `SceneManager::SetTransformations`. -/
def SetTransformations (fm : glm.FloatMath R) (scaleXYZ : glm.vec3 R) (XrotationDegrees : R)
    (YrotationDegrees : R) (ZrotationDegrees : R) (positionXYZ : glm.vec3 R) (w : World R) :
    Except Fault (World R) :=
  let scale := glm.scale scaleXYZ
  let rotationX := glm.rotate fm (glm.radians XrotationDegrees) ⟨1, 0, 0⟩
  let rotationY := glm.rotate fm (glm.radians YrotationDegrees) ⟨0, 1, 0⟩
  let rotationZ := glm.rotate fm (glm.radians ZrotationDegrees) ⟨0, 0, 1⟩
  let translation := glm.translate positionXYZ
  let modelView := translation * rotationZ * rotationY * rotationX * scale
  if w.self.m_pShaderManager ≠ none then
    viaShaderManager (.setMat4Value g_ModelName modelView) w
  else .ok w

/-- The method `SceneManager::SetShaderColor`; `false` is passed as the `int` 0. -/
def SetShaderColor (redColorValue : R) (greenColorValue : R) (blueColorValue : R)
    (alphaValue : R) (w : World R) : Except Fault (World R) :=
  let currentColor : glm.vec4 R := ⟨redColorValue, greenColorValue, blueColorValue, alphaValue⟩
  if w.self.m_pShaderManager ≠ none then do
    let w ← viaShaderManager (.setIntValue g_UseTextureName 0) w
    viaShaderManager (.setVec4Value g_ColorValueName currentColor) w
  else .ok w

/-- The method `SceneManager::SetShaderTexture`; `true` is passed as the `int` 1. -/
def SetShaderTexture (textureTag : String) (w : World R) : Except Fault (World R) :=
  if w.self.m_pShaderManager ≠ none then do
    let w ← viaShaderManager (.setIntValue g_UseTextureName 1) w
    let textureID ← FindTextureSlot w.self textureTag
    viaShaderManager (.setSampler2DValue g_TextureValueName textureID) w
  else .ok w

/-- The method `SceneManager::SetTextureUVScale`. -/
def SetTextureUVScale (u : R) (v : R) (w : World R) : Except Fault (World R) :=
  if w.self.m_pShaderManager ≠ none then
    viaShaderManager (.setVec2Value g_UVScaleName ⟨u, v⟩) w
  else .ok w

/-- The method `SceneManager::SetShaderMaterial`. The local `OBJECT_MATERIAL material;`
is not initialised: its property members hold whatever the environment left
there, its tag is the empty string. -/
def SetShaderMaterial (env : Env R) (materialTag : String) (w : World R) :
    Except Fault (World R) :=
  if w.self.m_objectMaterials.length > 0 then do
    let material : OBJECT_MATERIAL R := { env.indeterminate w.locals with tag := "" }
    let w := { w with locals := w.locals + 1 }
    let (bReturn, material) ← FindMaterial w.self materialTag material
    if bReturn = true then do
      let w ← viaShaderManager (.setVec3Value "material.ambientColor" material.ambientColor) w
      let w ← viaShaderManager (.setFloatValue "material.ambientStrength"
        material.ambientStrength) w
      let w ← viaShaderManager (.setVec3Value "material.diffuseColor" material.diffuseColor) w
      let w ← viaShaderManager (.setVec3Value "material.specularColor" material.specularColor) w
      viaShaderManager (.setFloatValue "material.shininess" material.shininess) w
    else .ok w
  else .ok w

/-- The material `defaultMaterial` of `DefineObjectMaterials`. -/
def defaultMaterial : OBJECT_MATERIAL R :=
  { ambientColor := ⟨1.0, 1.0, 1.0⟩
    ambientStrength := 0.1
    diffuseColor := ⟨1.0, 1.0, 1.0⟩
    specularColor := ⟨0.5, 0.5, 0.5⟩
    shininess := 32.0
    tag := "default" }

/-- The material `goldMaterial` of `DefineObjectMaterials`. -/
def goldMaterial : OBJECT_MATERIAL R :=
  { ambientColor := ⟨0.24725, 0.1995, 0.0745⟩
    ambientStrength := 0.1
    diffuseColor := ⟨0.75164, 0.60648, 0.22648⟩
    specularColor := ⟨0.628281, 0.555802, 0.366065⟩
    shininess := 51.2
    tag := "gold" }

/-- The material `silverMaterial` of `DefineObjectMaterials`. -/
def silverMaterial : OBJECT_MATERIAL R :=
  { ambientColor := ⟨0.19225, 0.19225, 0.19225⟩
    ambientStrength := 0.1
    diffuseColor := ⟨0.50754, 0.50754, 0.50754⟩
    specularColor := ⟨0.508273, 0.508273, 0.508273⟩
    shininess := 51.2
    tag := "silver" }

/-- The method `SceneManager::DefineObjectMaterials`: three `push_back`s. -/
def DefineObjectMaterials (w : World R) : Except Fault (World R) :=
  let w := { w with self := { w.self with
    m_objectMaterials := w.self.m_objectMaterials ++ [defaultMaterial] } }
  let w := { w with self := { w.self with
    m_objectMaterials := w.self.m_objectMaterials ++ [goldMaterial] } }
  let w := { w with self := { w.self with
    m_objectMaterials := w.self.m_objectMaterials ++ [silverMaterial] } }
  .ok w

/-- The method `SceneManager::SetupSceneLights`: every call goes through
`m_pShaderManager` without a NULL test. -/
def SetupSceneLights (w : World R) : Except Fault (World R) := do
  let w ← viaShaderManager (.setBoolValue g_UseLightingName true) w
  let w ← viaShaderManager (.setVec3Value "lightSources[0].position" ⟨5.0, 10.0, 5.0⟩) w
  let w ← viaShaderManager (.setVec3Value "lightSources[0].ambientColor" ⟨0.2, 0.2, 0.2⟩) w
  let w ← viaShaderManager (.setVec3Value "lightSources[0].diffuseColor" ⟨1.0, 1.0, 1.0⟩) w
  let w ← viaShaderManager (.setVec3Value "lightSources[0].specularColor" ⟨1.0, 1.0, 1.0⟩) w
  let w ← viaShaderManager (.setFloatValue "lightSources[0].focalStrength" 32.0) w
  let w ← viaShaderManager (.setFloatValue "lightSources[0].specularIntensity" 1.0) w
  let w ← viaShaderManager (.setVec3Value "lightSources[1].position" ⟨-5.0, 10.0, -5.0⟩) w
  let w ← viaShaderManager (.setVec3Value "lightSources[1].ambientColor" ⟨0.1, 0.0, 0.0⟩) w
  let w ← viaShaderManager (.setVec3Value "lightSources[1].diffuseColor" ⟨1.0, 0.0, 0.0⟩) w
  let w ← viaShaderManager (.setVec3Value "lightSources[1].specularColor" ⟨1.0, 0.0, 0.0⟩) w
  let w ← viaShaderManager (.setFloatValue "lightSources[1].focalStrength" 32.0) w
  let w ← viaShaderManager (.setFloatValue "lightSources[1].specularIntensity" 1.0) w
  let w ← viaShaderManager (.setVec3Value "lightSources[2].position" ⟨0.0, 10.0, 0.0⟩) w
  let w ← viaShaderManager (.setVec3Value "lightSources[2].ambientColor" ⟨0.2, 0.2, 0.2⟩) w
  let w ← viaShaderManager (.setVec3Value "lightSources[2].diffuseColor" ⟨0.7, 0.7, 0.7⟩) w
  let w ← viaShaderManager (.setVec3Value "lightSources[2].specularColor" ⟨0.7, 0.7, 0.7⟩) w
  let w ← viaShaderManager (.setFloatValue "lightSources[2].focalStrength" 32.0) w
  viaShaderManager (.setFloatValue "lightSources[2].specularIntensity" 0.5) w

/-- A call `m_basicMeshes->...`. -/
def viaBasicMeshes (call : Event R) (w : World R) : Except Fault (World R) :=
  .ok (w.emit [call])

/-- The method `SceneManager::RenderScene`. -/
def RenderScene (env : Env R) (w : World R) : Except Fault (World R) := do
  let XrotationDegrees : R := 0.0
  let YrotationDegrees : R := 0.0
  let ZrotationDegrees : R := 0.0
  let w ← viaShaderManager (.setVec3Value g_ViewPosName ⟨0.0, 0.0, 3.0⟩) w
  -- the plane (ground)
  let scaleXYZ : glm.vec3 R := ⟨20.0, 1.0, 10.0⟩
  let positionXYZ : glm.vec3 R := ⟨0.0, 0.0, 0.0⟩
  let w ← SetTransformations env.fm scaleXYZ XrotationDegrees YrotationDegrees ZrotationDegrees
    positionXYZ w
  let w ← SetShaderMaterial env "default" w
  let w ← SetShaderTexture "knife_handle" w
  let w ← SetTextureUVScale 1.0 1.0 w
  let w ← viaBasicMeshes (.DrawMesh .plane) w
  -- the bowl
  let scaleXYZ : glm.vec3 R := ⟨2.0, 1.0, 2.0⟩
  let positionXYZ : glm.vec3 R := ⟨0.0, 1.0, 0.0⟩
  let w ← SetTransformations env.fm scaleXYZ XrotationDegrees YrotationDegrees ZrotationDegrees
    positionXYZ w
  let w ← SetShaderMaterial env "default" w
  let w ← SetShaderTexture "knife_handle" w
  let w ← SetTextureUVScale 1.0 1.0 w
  let w ← viaBasicMeshes (.DrawMesh .sphere) w
  -- the apple
  let scaleXYZ : glm.vec3 R := ⟨0.5, 0.5, 0.5⟩
  let positionXYZ : glm.vec3 R := ⟨-0.5, 2.0, 0.0⟩
  let w ← SetTransformations env.fm scaleXYZ XrotationDegrees YrotationDegrees ZrotationDegrees
    positionXYZ w
  let w ← SetShaderColor 1.0 0.0 0.0 1.0 w
  let w ← viaBasicMeshes (.DrawMesh .sphere) w
  -- the orange
  let scaleXYZ : glm.vec3 R := ⟨0.6, 0.6, 0.6⟩
  let positionXYZ : glm.vec3 R := ⟨0.5, 2.0, 0.5⟩
  let w ← SetTransformations env.fm scaleXYZ XrotationDegrees YrotationDegrees ZrotationDegrees
    positionXYZ w
  let w ← SetShaderColor 1.0 0.5 0.0 1.0 w
  let w ← viaBasicMeshes (.DrawMesh .sphere) w
  -- the banana
  let scaleXYZ : glm.vec3 R := ⟨0.3, 0.3, 1.2⟩
  let XrotationDegrees : R := 90.0
  let ZrotationDegrees : R := 45.0
  let positionXYZ : glm.vec3 R := ⟨0.0, 2.0, -0.5⟩
  let w ← SetTransformations env.fm scaleXYZ XrotationDegrees YrotationDegrees ZrotationDegrees
    positionXYZ w
  let w ← SetShaderColor 1.0 1.0 0.0 1.0 w
  viaBasicMeshes (.DrawMesh .cylinder) w

end Pusher

end SceneManager

/-! ## Inputs of the examples and vocabulary of the theorems -/

/-- A world just after construction. -/
def World.init {R : Type} (pShaderManager : Option ShaderManager) : World R :=
  { self := SceneManager.new pShaderManager, trace := [], genCalls := 0, locals := 0 }

/-- A registry in which the tags `a`, `b`, `c` were registered in this order. -/
def sceneABC : SceneManager ℚ :=
  { m_pShaderManager := some ⟨1⟩
    m_textureIDs := [⟨1, "a"⟩, ⟨2, "b"⟩, ⟨3, "c"⟩] ++ List.replicate 13 ⟨0, ""⟩
    m_loadedTextures := 3
    m_objectMaterials := [] }

/-- A registry whose only entry has the largest `GLuint` as its handle. -/
def sceneMaxHandle : SceneManager ℚ :=
  { m_pShaderManager := some ⟨1⟩
    m_textureIDs := [⟨4294967295, "a"⟩] ++ List.replicate 15 ⟨0, ""⟩
    m_loadedTextures := 1
    m_objectMaterials := [] }

/-- Run `DefineObjectMaterials` `n` times in a row. -/
def DefineObjectMaterials.times {R : Type} [Field R] :
    Nat → World R → Except Fault (World R)
  | 0, w => .ok w
  | n + 1, w => do
    let w ← SceneManager.DefineObjectMaterials w
    DefineObjectMaterials.times n w

/-- A material that is in no catalog of the program. -/
def bronzeMaterial : OBJECT_MATERIAL ℚ :=
  { ambientColor := ⟨1, 2, 3⟩
    ambientStrength := 4
    diffuseColor := ⟨5, 6, 7⟩
    specularColor := ⟨8, 9, 10⟩
    shininess := 11
    tag := "bronze" }

/-- An object whose catalog holds the gold material only. -/
def sceneGoldOnly : SceneManager ℚ :=
  { m_pShaderManager := some ⟨1⟩
    m_textureIDs := List.replicate 16 ⟨0, ""⟩
    m_loadedTextures := 0
    m_objectMaterials := [SceneManager.goldMaterial] }

/-- Answers of the collaborators for the examples: `missing.jpg` does not
decode, `gray.png` has one channel, every other file is a 3-channel image; the
driver hands out the names 1, 2, 3, ...; the `k`-th uninitialised local holds
`k` in every property member; `cos`, `sin` and `sqrt` are rational stand-ins
(no theorem about matrices is stated over them). -/
def sampleEnv : Env ℚ :=
  { fm := ⟨fun x => 1 - x * x / 2, fun x => x, fun x => x⟩
    stbi_load := fun filename =>
      if filename = "missing.jpg" then none
      else if filename = "gray.png" then some ⟨8, 8, 1⟩
      else some ⟨64, 64, 3⟩
    glGenTextures := fun k => k + 1
    indeterminate := fun k =>
      { ambientColor := ⟨k, k, k⟩
        ambientStrength := k
        diffuseColor := ⟨k, k, k⟩
        specularColor := ⟨k, k, k⟩
        shininess := k
        tag := "" } }

/-- A driver that hands out the largest `GLuint` first. -/
def envMaxHandle : Env ℚ :=
  { sampleEnv with glGenTextures := fun k => 4294967295 - k }

/-- Run `CreateGLTexture(filename, tag)` `n` times in a row, ignoring the results. -/
def CreateGLTexture.times {R : Type} (env : Env R) (filename : String) (tag : String) :
    Nat → World R → Except Fault (World R)
  | 0, w => .ok w
  | n + 1, w => do
    let (_, w) ← SceneManager.CreateGLTexture env filename tag w
    CreateGLTexture.times env filename tag n w

/-- The calls `BindGLTextures` makes for the `n` entries from index `i` on. -/
def bindCallsFrom {R : Type} (st : SceneManager R) : Nat → Nat → List (Event R)
  | 0, _ => []
  | n + 1, i =>
    [.glActiveTexture (GL_TEXTURE0 + i),
      .glBindTexture GL_TEXTURE_2D (st.m_textureIDs.getD i ⟨0, ""⟩).ID]
      ++ bindCallsFrom st n (i + 1)

/-- A world whose shader manager pointer is NULL and whose catalog holds the
three materials of `DefineObjectMaterials`. -/
def worldNullShader : World ℚ :=
  { self :=
      { m_pShaderManager := none
        m_textureIDs := List.replicate 16 ⟨0, ""⟩
        m_loadedTextures := 0
        m_objectMaterials :=
          [SceneManager.defaultMaterial, SceneManager.goldMaterial, SceneManager.silverMaterial] }
    trace := []
    genCalls := 0
    locals := 0 }

/-- The meshes drawn by a sequence of calls, in order. -/
def drawn {R : Type} (evs : List (Event R)) : List Mesh :=
  evs.filterMap fun e =>
    match e with
    | .DrawMesh shape => some shape
    | _ => none

/-- The values written to the float uniform `name` by a sequence of calls, in order. -/
def floatWrites {R : Type} (name : String) (evs : List (Event R)) : List R :=
  evs.filterMap fun e =>
    match e with
    | .setFloatValue n value => if n = name then some value else none
    | _ => none

/-- The five uniform writes of `SetShaderMaterial` for the material `m`. -/
def materialCalls {R : Type} (m : OBJECT_MATERIAL R) : List (Event R) :=
  [.setVec3Value "material.ambientColor" m.ambientColor,
    .setFloatValue "material.ambientStrength" m.ambientStrength,
    .setVec3Value "material.diffuseColor" m.diffuseColor,
    .setVec3Value "material.specularColor" m.specularColor,
    .setFloatValue "material.shininess" m.shininess]

/-- The method `f`, run on any world whose object is `st`, succeeds, leaves the
object as it is and appends exactly the calls `evs` to the trace. -/
def Emits {R : Type} (f : World R → Except Fault (World R)) (st : SceneManager R)
    (evs : List (Event R)) : Prop :=
  ∀ w, w.self = st → ∃ w2, f w = .ok w2 ∧ w2.self = st ∧ w2.trace = w.trace ++ evs

/-- The method `f`, run on any world whose object is `st`, succeeds, leaves the
object as it is and appends calls whose draw calls are `ds`, in this order. -/
def Draws {R : Type} (f : World R → Except Fault (World R)) (st : SceneManager R)
    (ds : List Mesh) : Prop :=
  ∀ w, w.self = st →
    ∃ w2 evs, f w = .ok w2 ∧ w2.self = st ∧ w2.trace = w.trace ++ evs ∧ drawn evs = ds

/-- A world with a bound shader whose catalog holds the gold material only. -/
def worldGoldOnly : World ℚ :=
  { self := sceneGoldOnly, trace := [], genCalls := 0, locals := 0 }

namespace SceneManager

variable {R : Type}

/-- The registry fits its array: the invariant of a well-formed object. -/
def RegistryOK (st : SceneManager R) : Prop :=
  st.m_textureIDs.length = MAX_TEXTURES ∧ st.m_loadedTextures ≤ MAX_TEXTURES

instance instDecidableRegistryOK (st : SceneManager R) : Decidable (RegistryOK st) := by
  unfold RegistryOK
  exact inferInstance

/-- No entry below `n` carries `tag`. -/
def NoTagBelow (st : SceneManager R) (tag : String) (n : Nat) : Prop :=
  ∀ j, j < n → ∀ e, st.m_textureIDs[j]? = some e → e.tag ≠ tag

/-- Entry `i` is the first registered entry carrying `tag`, and it is `e`. -/
def FirstMatch (st : SceneManager R) (tag : String) (i : Nat) (e : TEXTURE_INFO) : Prop :=
  i < st.m_loadedTextures ∧ st.m_textureIDs[i]? = some e ∧ e.tag = tag ∧ NoTagBelow st tag i

/-- What a match of `FindMaterial` writes into `material`: the five property
members of the catalog entry; the tag of `material` stays. -/
def copyProperties (material src : OBJECT_MATERIAL R) : OBJECT_MATERIAL R :=
  { material with
    ambientColor := src.ambientColor
    ambientStrength := src.ambientStrength
    diffuseColor := src.diffuseColor
    specularColor := src.specularColor
    shininess := src.shininess }

/-- The result of the scan from `index` on: the first entry with the tag, if any. -/
def scanFrom (st : SceneManager R) (tag : String) (index : Nat)
    (material : OBJECT_MATERIAL R) : OBJECT_MATERIAL R :=
  match (st.m_objectMaterials.drop index).find? (fun m => decide (m.tag = tag)) with
  | none => material
  | some src => copyProperties material src

end SceneManager

/-! ## Theorems -/

namespace SceneManager

variable {R : Type}

theorem NoTagBelow.succ {st : SceneManager R} {tag : String} {n : Nat} {e : TEXTURE_INFO}
    (h : NoTagBelow st tag n) (he : st.m_textureIDs[n]? = some e) (hne : e.tag ≠ tag) :
    NoTagBelow st tag (n + 1) := by
  intro j hj e2 he2
  rcases Nat.lt_succ_iff_lt_or_eq.mp hj with hlt | heq
  · exact h j hlt e2 he2
  · subst heq
    rw [he] at he2
    cases he2
    exact hne

theorem FindTextureSlot_loop_found (st : SceneManager R) (tag : String) (budget : Nat) (r : Int)
    (index : Nat) : FindTextureSlot.loop st tag (budget + 1) r index true = .ok r := by
  simp [FindTextureSlot.loop]

theorem FindTextureSlot_loop_spec (st : SceneManager R) (tag : String)
    (hcap : st.m_loadedTextures ≤ st.m_textureIDs.length) :
    ∀ budget index, index ≤ st.m_loadedTextures → st.m_loadedTextures - index + 1 < budget →
      NoTagBelow st tag index →
      (∃ (i : Nat) (e : TEXTURE_INFO),
        FindTextureSlot.loop st tag budget (-1) index false = .ok (i : Int) ∧
        FirstMatch st tag i e) ∨
      (FindTextureSlot.loop st tag budget (-1) index false = .ok (-1) ∧
        NoTagBelow st tag st.m_loadedTextures) := by
  intro budget
  induction budget with
  | zero => intro index _ h; omega
  | succ b ih =>
    intro index hle hb hno
    unfold FindTextureSlot.loop
    by_cases hlt : index < st.m_loadedTextures
    · have hlen : index < st.m_textureIDs.length := by omega
      have hget : st.m_textureIDs[index]? = some st.m_textureIDs[index] :=
        List.getElem?_eq_getElem hlen
      obtain ⟨c, rfl⟩ : ∃ c, b = c + 1 := ⟨b - 1, by omega⟩
      simp only [hlt, true_and, if_true, hget]
      by_cases htag : st.m_textureIDs[index].tag = tag
      · left
        refine ⟨index, st.m_textureIDs[index], ?_, hlt, hget, htag, hno⟩
        rw [if_pos htag, FindTextureSlot_loop_found]
      · rw [if_neg htag]
        exact ih (index + 1) (by omega) (by omega) (hno.succ hget htag)
    · right
      have : index = st.m_loadedTextures := by omega
      subst this
      simp [hno]

theorem FindTextureID_loop_found (st : SceneManager R) (tag : String) (budget : Nat) (r : Int)
    (index : Nat) : FindTextureID.loop st tag (budget + 1) r index true = .ok r := by
  simp [FindTextureID.loop]

theorem FindTextureID_loop_spec (st : SceneManager R) (tag : String)
    (hcap : st.m_loadedTextures ≤ st.m_textureIDs.length) :
    ∀ budget index, index ≤ st.m_loadedTextures → st.m_loadedTextures - index + 1 < budget →
      NoTagBelow st tag index →
      (∃ (i : Nat) (e : TEXTURE_INFO),
        FindTextureID.loop st tag budget (-1) index false = .ok (GLuint_to_int e.ID) ∧
        FirstMatch st tag i e) ∨
      (FindTextureID.loop st tag budget (-1) index false = .ok (-1) ∧
        NoTagBelow st tag st.m_loadedTextures) := by
  intro budget
  induction budget with
  | zero => intro index _ h; omega
  | succ b ih =>
    intro index hle hb hno
    unfold FindTextureID.loop
    by_cases hlt : index < st.m_loadedTextures
    · have hlen : index < st.m_textureIDs.length := by omega
      have hget : st.m_textureIDs[index]? = some st.m_textureIDs[index] :=
        List.getElem?_eq_getElem hlen
      obtain ⟨c, rfl⟩ : ∃ c, b = c + 1 := ⟨b - 1, by omega⟩
      simp only [hlt, true_and, if_true, hget]
      by_cases htag : st.m_textureIDs[index].tag = tag
      · left
        refine ⟨index, st.m_textureIDs[index], ?_, hlt, hget, htag, hno⟩
        rw [if_pos htag, FindTextureID_loop_found]
      · rw [if_neg htag]
        exact ih (index + 1) (by omega) (by omega) (hno.succ hget htag)
    · right
      have : index = st.m_loadedTextures := by omega
      subst this
      simp [hno]

theorem NoTagBelow.zero (st : SceneManager R) (tag : String) : NoTagBelow st tag 0 := by
  intro j hj
  omega

/-- Both lookups agree on which entry they report. -/
theorem FirstMatch.unique {st : SceneManager R} {tag : String} {i j : Nat}
    {e f : TEXTURE_INFO} (h1 : FirstMatch st tag i e) (h2 : FirstMatch st tag j f) :
    i = j ∧ e = f := by
  obtain ⟨_, hi, hti, hni⟩ := h1
  obtain ⟨_, hj, htj, hnj⟩ := h2
  have hij : i = j := by
    rcases Nat.lt_trichotomy i j with h | h | h
    · exact absurd hti (hnj i h e hi)
    · exact h
    · exact absurd htj (hni j h f hj)
  subst hij
  rw [hi] at hj
  cases hj
  exact ⟨rfl, rfl⟩

theorem GLuint_to_int_small {id : Nat} (h : id < 2 ^ 31) : GLuint_to_int id = (id : Int) := by
  have h2 : id % 2 ^ 32 = id := Nat.mod_eq_of_lt (by omega)
  unfold GLuint_to_int
  rw [h2, if_pos h]

/-- On a registry that fits its array `FindTextureSlot` always returns a value. -/
theorem FindTextureSlot_ok (st : SceneManager R) (tag : String)
    (hcap : st.m_loadedTextures ≤ st.m_textureIDs.length) :
    ∃ slot, FindTextureSlot st tag = .ok slot := by
  rcases FindTextureSlot_loop_spec st tag hcap (st.m_loadedTextures + 2) 0 (Nat.zero_le _)
    (by omega) (NoTagBelow.zero st tag) with ⟨i, e, hr, _⟩ | ⟨hr, _⟩
  · exact ⟨_, hr⟩
  · exact ⟨_, hr⟩

/-- The registry of `sceneABC` is what three successful loads tagged a, b, c leave
in a fresh object. -/
theorem sceneABC_registered :
    (do
      let (_, w) ← CreateGLTexture sampleEnv "a.jpg" "a" (World.init (some ⟨1⟩))
      let (_, w) ← CreateGLTexture sampleEnv "b.jpg" "b" w
      let (_, w) ← CreateGLTexture sampleEnv "c.jpg" "c" w
      pure (w.self.m_pShaderManager, w.self.m_textureIDs, w.self.m_loadedTextures))
    = (.ok (sceneABC.m_pShaderManager, sceneABC.m_textureIDs, sceneABC.m_loadedTextures) :
        Except Fault (Option ShaderManager × List TEXTURE_INFO × Nat)) := by
  decide

/-- C1. On every registry that fits its array, `FindTextureSlot(t)` returns the
smallest index below `m_loadedTextures` whose entry has tag `t` (the first
registration wins), and returns -1 when no registered entry has tag `t`. -/
theorem FindTextureSlot_first_match (st : SceneManager R) (tag : String)
    (hcap : st.m_loadedTextures ≤ st.m_textureIDs.length) :
    (∃ i : Nat, FindTextureSlot st tag = .ok (i : Int) ∧ i < st.m_loadedTextures ∧
        (∃ e, st.m_textureIDs[i]? = some e ∧ e.tag = tag) ∧
        ∀ j, j < i → ∀ e, st.m_textureIDs[j]? = some e → e.tag ≠ tag) ∨
    (FindTextureSlot st tag = .ok (-1) ∧
        ∀ j, j < st.m_loadedTextures → ∀ e, st.m_textureIDs[j]? = some e → e.tag ≠ tag) := by
  rcases FindTextureSlot_loop_spec st tag hcap (st.m_loadedTextures + 2) 0 (Nat.zero_le _)
    (by omega) (NoTagBelow.zero st tag) with ⟨i, e, hr, hlt, hget, htag, hno⟩ | ⟨hr, hno⟩
  · exact Or.inl ⟨i, hr, hlt, ⟨e, hget, htag⟩, hno⟩
  · exact Or.inr ⟨hr, hno⟩

/-- C1, witness: after registering the tags a, b, c the slot of b is 1 and the
slot of an unregistered tag is -1. -/
theorem FindTextureSlot_first_match_witness :
    sceneABC.m_loadedTextures ≤ sceneABC.m_textureIDs.length ∧
    ((∃ i : Nat, FindTextureSlot sceneABC "b" = .ok (i : Int) ∧ i < sceneABC.m_loadedTextures ∧
        (∃ e, sceneABC.m_textureIDs[i]? = some e ∧ e.tag = "b") ∧
        ∀ j, j < i → ∀ e, sceneABC.m_textureIDs[j]? = some e → e.tag ≠ "b") ∨
    (FindTextureSlot sceneABC "b" = .ok (-1) ∧
        ∀ j, j < sceneABC.m_loadedTextures → ∀ e, sceneABC.m_textureIDs[j]? = some e →
          e.tag ≠ "b")) ∧
    FindTextureSlot sceneABC "b" = .ok 1 ∧ FindTextureSlot sceneABC "missing" = .ok (-1) :=
  ⟨by decide, FindTextureSlot_first_match sceneABC "b" (by decide), by decide, by decide⟩

/-- C7, counterexample: the registry holds an entry tagged a, with handle
4294967295, and `FindTextureID("a")` returns -1, which is neither that handle nor
a sign that the tag is missing. -/
theorem FindTextureID_sentinel_collision :
    FindTextureID sceneMaxHandle "a" = .ok (-1) ∧
    0 < sceneMaxHandle.m_loadedTextures ∧
    sceneMaxHandle.m_textureIDs[0]? = some ⟨4294967295, "a"⟩ ∧
    FindTextureID sceneMaxHandle "a" ≠ .ok ((4294967295 : Nat) : Int) := by
  decide

/-- C7, amended. On every registry that fits its array, `FindTextureID(t)` returns
the handle of the first entry with tag `t` converted from `GLuint` to `int`
(the handle itself when it is below 2^31, and then not -1), and returns -1 when
no registered entry has tag `t`. -/
theorem FindTextureID_first_match (st : SceneManager R) (tag : String)
    (hcap : st.m_loadedTextures ≤ st.m_textureIDs.length) :
    (∃ (i : Nat) (e : TEXTURE_INFO), i < st.m_loadedTextures ∧ st.m_textureIDs[i]? = some e ∧
        e.tag = tag ∧ (∀ j, j < i → ∀ f, st.m_textureIDs[j]? = some f → f.tag ≠ tag) ∧
        FindTextureID st tag = .ok (GLuint_to_int e.ID) ∧
        (e.ID < 2 ^ 31 →
          FindTextureID st tag = .ok (e.ID : Int) ∧ FindTextureID st tag ≠ .ok (-1))) ∨
    (FindTextureID st tag = .ok (-1) ∧
        ∀ j, j < st.m_loadedTextures → ∀ e, st.m_textureIDs[j]? = some e → e.tag ≠ tag) := by
  rcases FindTextureID_loop_spec st tag hcap (st.m_loadedTextures + 2) 0 (Nat.zero_le _)
    (by omega) (NoTagBelow.zero st tag) with ⟨i, e, hr, hlt, hget, htag, hno⟩ | ⟨hr, hno⟩
  · refine Or.inl ⟨i, e, hlt, hget, htag, hno, hr, ?_⟩
    intro hsmall
    have hconv := GLuint_to_int_small hsmall
    have hr2 : FindTextureID st tag = .ok (GLuint_to_int e.ID) := hr
    rw [hr2, hconv]
    refine ⟨rfl, ?_⟩
    intro hneg
    have hid : (e.ID : Int) = -1 := Except.ok.inj hneg
    omega
  · exact Or.inr ⟨hr, hno⟩

/-- C7, witness: in the registry a, b, c (handles 1, 2, 3) the handle of b is 2. -/
theorem FindTextureID_first_match_witness :
    sceneABC.m_loadedTextures ≤ sceneABC.m_textureIDs.length ∧
    ((∃ (i : Nat) (e : TEXTURE_INFO), i < sceneABC.m_loadedTextures ∧
        sceneABC.m_textureIDs[i]? = some e ∧ e.tag = "b" ∧
        (∀ j, j < i → ∀ f, sceneABC.m_textureIDs[j]? = some f → f.tag ≠ "b") ∧
        FindTextureID sceneABC "b" = .ok (GLuint_to_int e.ID) ∧
        (e.ID < 2 ^ 31 →
          FindTextureID sceneABC "b" = .ok (e.ID : Int) ∧
          FindTextureID sceneABC "b" ≠ .ok (-1))) ∨
    (FindTextureID sceneABC "b" = .ok (-1) ∧
        ∀ j, j < sceneABC.m_loadedTextures → ∀ e, sceneABC.m_textureIDs[j]? = some e →
          e.tag ≠ "b")) ∧
    FindTextureID sceneABC "b" = .ok 2 ∧ FindTextureID sceneABC "missing" = .ok (-1) :=
  ⟨by decide, FindTextureID_first_match sceneABC "b" (by decide), by decide, by decide⟩

/-! ### Material catalog -/

theorem FindMaterial_loop_found (st : SceneManager R) (tag : String) (budget index : Nat)
    (material : OBJECT_MATERIAL R) :
    FindMaterial.loop st tag (budget + 1) index true material = .ok material := by
  simp [FindMaterial.loop]

theorem FindMaterial_loop_eq (st : SceneManager R) (tag : String)
    (material : OBJECT_MATERIAL R) :
    ∀ budget index, index ≤ st.m_objectMaterials.length →
      st.m_objectMaterials.length - index + 1 < budget →
      FindMaterial.loop st tag budget index false material
        = .ok (scanFrom st tag index material) := by
  intro budget
  induction budget with
  | zero => intro index _ h; omega
  | succ b ih =>
    intro index hle hb
    unfold FindMaterial.loop
    by_cases hlt : index < st.m_objectMaterials.length
    · have hdrop : st.m_objectMaterials.drop index =
          st.m_objectMaterials[index] :: st.m_objectMaterials.drop (index + 1) :=
        List.drop_eq_getElem_cons hlt
      obtain ⟨c, rfl⟩ : ∃ c, b = c + 1 := ⟨b - 1, by omega⟩
      by_cases htag : st.m_objectMaterials[index].tag = tag
      · rw [dif_pos hlt, if_pos rfl, if_pos htag, FindMaterial_loop_found]
        unfold scanFrom
        rw [hdrop, List.find?_cons_of_pos _ (by simpa using htag)]
        rfl
      · rw [dif_pos hlt, if_pos rfl, if_neg htag, ih (index + 1) (by omega) (by omega)]
        unfold scanFrom
        rw [hdrop, List.find?_cons_of_neg _ (by simpa using htag)]
    · have hnil : st.m_objectMaterials.drop index = [] := List.drop_eq_nil_of_le (by omega)
      simp [hlt, scanFrom, hnil]

theorem FindMaterial_eq (st : SceneManager R) (tag : String) (material : OBJECT_MATERIAL R) :
    FindMaterial st tag material =
      if st.m_objectMaterials.length = 0 then .ok (false, material)
      else .ok (true, scanFrom st tag 0 material) := by
  unfold FindMaterial
  by_cases h : st.m_objectMaterials.length = 0
  · simp [h]
  · rw [if_neg h, if_neg h, FindMaterial_loop_eq st tag material _ 0 (Nat.zero_le _) (by omega)]
    rfl

/-- C2. `FindMaterial(t, out)` returns false with `out` untouched on the empty
catalog, and on every non-empty catalog it returns true, also when no entry has
tag `t`, in which case `out` is left exactly as it was passed in. -/
theorem FindMaterial_false_iff_empty (st : SceneManager R) (tag : String)
    (material : OBJECT_MATERIAL R) :
    (st.m_objectMaterials = [] → FindMaterial st tag material = .ok (false, material)) ∧
    (st.m_objectMaterials ≠ [] →
      ∃ out, FindMaterial st tag material = .ok (true, out) ∧
        ((∀ m, m ∈ st.m_objectMaterials → m.tag ≠ tag) → out = material)) := by
  rw [FindMaterial_eq]
  constructor
  · intro h
    simp [h]
  · intro h
    have hlen : st.m_objectMaterials.length ≠ 0 := by
      intro h0
      exact h (List.length_eq_zero.mp h0)
    refine ⟨scanFrom st tag 0 material, by rw [if_neg hlen], ?_⟩
    intro hno
    have hfind : st.m_objectMaterials.find? (fun m => decide (m.tag = tag)) = none := by
      rw [List.find?_eq_none]
      intro m hm
      simpa using hno m hm
    simp [scanFrom, hfind]

/-- C2, witness: the empty catalog answers false, the catalog holding gold only
answers true for the tag silver and leaves the output as passed in. -/
theorem FindMaterial_false_iff_empty_witness :
    FindMaterial (SceneManager.new (R := ℚ) none) "silver" bronzeMaterial
      = .ok (false, bronzeMaterial) ∧
    ∃ out, FindMaterial sceneGoldOnly "silver" bronzeMaterial = .ok (true, out) ∧
      out = bronzeMaterial := by
  refine ⟨(FindMaterial_false_iff_empty (SceneManager.new none) "silver" bronzeMaterial).1 rfl,
    ?_⟩
  obtain ⟨out, h1, h2⟩ :=
    (FindMaterial_false_iff_empty sceneGoldOnly "silver" bronzeMaterial).2
      (by simp [sceneGoldOnly])
  refine ⟨out, h1, h2 ?_⟩
  intro m hm
  have : m = goldMaterial := by simpa [sceneGoldOnly] using hm
  subst this
  decide

section Catalog

variable [Field R]

theorem DefineObjectMaterials_eq (w : World R) :
    DefineObjectMaterials w = .ok { w with self := { w.self with
      m_objectMaterials :=
        w.self.m_objectMaterials ++ [defaultMaterial, goldMaterial, silverMaterial] } } := by
  simp [DefineObjectMaterials]

theorem DefineObjectMaterials.times_eq (n : Nat) :
    ∀ w : World R, DefineObjectMaterials.times n w = .ok { w with self := { w.self with
      m_objectMaterials := w.self.m_objectMaterials ++
        (List.replicate n [defaultMaterial, goldMaterial, silverMaterial]).flatten } } := by
  induction n with
  | zero => intro w; simp [DefineObjectMaterials.times]
  | succ k ih =>
    intro w
    simp only [DefineObjectMaterials.times, DefineObjectMaterials_eq, bind, Except.bind, ih]
    simp [List.replicate_succ]

theorem catalog_tags (k : Nat) :
    ((List.replicate k [defaultMaterial, goldMaterial, silverMaterial]).flatten).map
        (fun m : OBJECT_MATERIAL R => m.tag) =
      (List.replicate k ["default", "gold", "silver"]).flatten := by
  induction k with
  | zero => simp
  | succ j ih =>
    rw [List.replicate_succ, List.flatten_cons, List.map_append, ih, List.replicate_succ,
      List.flatten_cons]
    rfl

/-- C10, counterexample: after one `DefineObjectMaterials` on a fresh object,
`FindMaterial("gold", out)` with `out` the bronze material returns true and
leaves the tag of `out` at bronze: `out` is not the gold entry, whose tag is gold. -/
theorem FindMaterial_gold_keeps_tag :
    (do
      let w ← DefineObjectMaterials.times 1 (World.init (R := ℚ) none)
      let (b, out) ← FindMaterial w.self "gold" bronzeMaterial
      pure (b, out.tag, (goldMaterial (R := ℚ)).tag, decide (out.tag = (goldMaterial (R := ℚ)).tag)))
    = (.ok (true, "bronze", "gold", false) : Except Fault (Bool × String × String × Bool)) := by
  decide

/-- C10, amended. For every n >= 1, n calls of `DefineObjectMaterials` on an empty catalog
leave 3n entries, tagged default, gold, silver n times over, and
`FindMaterial("gold", out)` then returns true and writes the five property
members of the gold material of the first call into `out` (shininess 51.2),
leaving the tag of `out` as it was passed in, whatever n is. -/
theorem DefineObjectMaterials_repeated (n : Nat) (hn : 1 ≤ n) (w : World R)
    (hempty : w.self.m_objectMaterials = []) (out : OBJECT_MATERIAL R) :
    ∃ w2, DefineObjectMaterials.times n w = .ok w2 ∧
      w2.self.m_objectMaterials.length = 3 * n ∧
      w2.self.m_objectMaterials.map (fun m => m.tag) =
        (List.replicate n ["default", "gold", "silver"]).flatten ∧
      w2.self.m_objectMaterials[1]? = some goldMaterial ∧
      FindMaterial w2.self "gold" out = .ok (true,
        { ambientColor := ⟨0.24725, 0.1995, 0.0745⟩
          ambientStrength := 0.1
          diffuseColor := ⟨0.75164, 0.60648, 0.22648⟩
          specularColor := ⟨0.628281, 0.555802, 0.366065⟩
          shininess := 51.2
          tag := out.tag }) := by
  refine ⟨_, DefineObjectMaterials.times_eq n w, ?_⟩
  obtain ⟨k, rfl⟩ : ∃ k, n = k + 1 := ⟨n - 1, by omega⟩
  simp only [hempty, List.nil_append]
  refine ⟨?_, ?_, ?_, ?_⟩
  · simp
    omega
  · exact catalog_tags (k + 1)
  · simp [List.replicate_succ]
  · rw [FindMaterial_eq]
    simp [List.replicate_succ, scanFrom, defaultMaterial, goldMaterial, copyProperties]

/-- C10, witness: two calls on the catalog of a fresh object. -/
theorem DefineObjectMaterials_repeated_witness :
    1 ≤ 2 ∧ (World.init (R := ℚ) none).self.m_objectMaterials = [] ∧
    ∃ w2, DefineObjectMaterials.times 2 (World.init (R := ℚ) none) = .ok w2 ∧
      w2.self.m_objectMaterials.length = 3 * 2 ∧
      w2.self.m_objectMaterials.map (fun m => m.tag) =
        (List.replicate 2 ["default", "gold", "silver"]).flatten ∧
      w2.self.m_objectMaterials[1]? = some goldMaterial ∧
      FindMaterial w2.self "gold" bronzeMaterial = .ok (true,
        { ambientColor := ⟨0.24725, 0.1995, 0.0745⟩
          ambientStrength := 0.1
          diffuseColor := ⟨0.75164, 0.60648, 0.22648⟩
          specularColor := ⟨0.628281, 0.555802, 0.366065⟩
          shininess := 51.2
          tag := bronzeMaterial.tag }) :=
  ⟨by decide, rfl, DefineObjectMaterials_repeated 2 (by decide) (World.init none) rfl
    bronzeMaterial⟩

end Catalog

/-! ### Texture registry -/

@[simp] theorem emit_self (w : World R) (es : List (Event R)) : (w.emit es).self = w.self := rfl

@[simp] theorem emit_genCalls (w : World R) (es : List (Event R)) :
    (w.emit es).genCalls = w.genCalls := rfl

@[simp] theorem emit_locals (w : World R) (es : List (Event R)) :
    (w.emit es).locals = w.locals := rfl

@[simp] theorem emit_trace (w : World R) (es : List (Event R)) :
    (w.emit es).trace = w.trace ++ es := rfl

theorem emit_emit (w : World R) (es fs : List (Event R)) :
    (w.emit es).emit fs = w.emit (es ++ fs) := by
  simp [World.emit, List.append_assoc]

theorem emit_nil (w : World R) : w.emit [] = w := by
  simp [World.emit]

/-- The result of `CreateGLTexture`, case by case. -/
theorem CreateGLTexture_cases (env : Env R) (filename tag : String) (w : World R)
    (hroom : w.self.m_loadedTextures < w.self.m_textureIDs.length) :
    (env.stbi_load filename = none ∧
      ∃ w2, CreateGLTexture env filename tag w = .ok (false, w2) ∧ w2.self = w.self ∧
        w2.genCalls = w.genCalls) ∨
    (∃ image, env.stbi_load filename = some image ∧
      ¬ (image.colorChannels = 3 ∨ image.colorChannels = 4) ∧
      ∃ w2, CreateGLTexture env filename tag w = .ok (false, w2) ∧ w2.self = w.self ∧
        w2.genCalls = w.genCalls + 1) ∨
    (∃ image, env.stbi_load filename = some image ∧
      (image.colorChannels = 3 ∨ image.colorChannels = 4) ∧
      ∃ w2, CreateGLTexture env filename tag w = .ok (true, w2) ∧
        w2.self = { w.self with
          m_textureIDs := w.self.m_textureIDs.set w.self.m_loadedTextures
            ⟨env.glGenTextures w.genCalls % 2 ^ 32, tag⟩
          m_loadedTextures := w.self.m_loadedTextures + 1 } ∧
        w2.genCalls = w.genCalls + 1) := by
  unfold CreateGLTexture
  cases hload : env.stbi_load filename with
  | none => exact Or.inl ⟨rfl, _, rfl, rfl, rfl⟩
  | some image =>
    right
    by_cases h3 : image.colorChannels = 3
    · right
      refine ⟨image, rfl, Or.inl h3, ?_⟩
      simp [h3, hroom]
    · by_cases h4 : image.colorChannels = 4
      · right
        refine ⟨image, rfl, Or.inr h4, ?_⟩
        simp [h3, h4, hroom]
      · left
        refine ⟨image, rfl, by simp [h3, h4], ?_⟩
        simp [h3, h4]

/-- C3. On every registry with fewer than 16 entries, `CreateGLTexture(path, tag)`
returns true exactly when the image decodes with 3 or 4 channels; it then writes
(new handle, tag) at index `m_loadedTextures`, raises the count by one and
leaves every other entry alone; otherwise it returns false and the object is
unchanged. -/
theorem CreateGLTexture_registers (env : Env R) (filename tag : String) (w : World R)
    (hok : RegistryOK w.self) (hroom : w.self.m_loadedTextures < MAX_TEXTURES) :
    ∃ b w2, CreateGLTexture env filename tag w = .ok (b, w2) ∧
      (b = true ↔ ∃ image, env.stbi_load filename = some image ∧
        (image.colorChannels = 3 ∨ image.colorChannels = 4)) ∧
      (b = true →
        w2.self.m_loadedTextures = w.self.m_loadedTextures + 1 ∧
        w2.self.m_textureIDs[w.self.m_loadedTextures]? =
          some ⟨env.glGenTextures w.genCalls % 2 ^ 32, tag⟩ ∧
        (∀ i, i ≠ w.self.m_loadedTextures →
          w2.self.m_textureIDs[i]? = w.self.m_textureIDs[i]?) ∧
        RegistryOK w2.self) ∧
      (b = false → w2.self = w.self) := by
  have hlen : w.self.m_loadedTextures < w.self.m_textureIDs.length := by
    rw [hok.1]; exact hroom
  rcases CreateGLTexture_cases env filename tag w hlen with
    ⟨hnone, w2, hrun, hself, _⟩ | ⟨image, hsome, hch, w2, hrun, hself, _⟩ |
    ⟨image, hsome, hch, w2, hrun, hself, _⟩
  · refine ⟨false, w2, hrun, ?_, by simp, fun _ => hself⟩
    simp [hnone]
  · refine ⟨false, w2, hrun, ?_, by simp, fun _ => hself⟩
    simp only [hsome, Option.some.injEq, false_iff, Bool.false_eq_true]
    rintro ⟨im, rfl, h⟩
    exact hch h
  · refine ⟨true, w2, hrun, ?_, fun _ => ?_, by simp⟩
    · simp only [true_iff]
      exact ⟨image, hsome, hch⟩
    · rw [hself]
      refine ⟨rfl, ?_, ?_, ?_⟩
      · simp [List.getElem?_set, hlen]
      · intro i hi
        simp [List.getElem?_set, Ne.symm hi]
      · refine ⟨?_, ?_⟩
        · simp [hok.1]
        · exact hroom

/-- C3, witness: on a fresh object a 3-channel file registers, an undecodable
file and a one-channel file do not. -/
theorem CreateGLTexture_registers_witness :
    RegistryOK (World.init (R := ℚ) none).self ∧
    (World.init (R := ℚ) none).self.m_loadedTextures < MAX_TEXTURES ∧
    (∃ b w2, CreateGLTexture sampleEnv "wood.jpg" "wood" (World.init none) = .ok (b, w2) ∧
      (b = true ↔ ∃ image, sampleEnv.stbi_load "wood.jpg" = some image ∧
        (image.colorChannels = 3 ∨ image.colorChannels = 4)) ∧
      (b = true →
        w2.self.m_loadedTextures = (World.init (R := ℚ) none).self.m_loadedTextures + 1 ∧
        w2.self.m_textureIDs[(World.init (R := ℚ) none).self.m_loadedTextures]? =
          some ⟨sampleEnv.glGenTextures (World.init (R := ℚ) none).genCalls % 2 ^ 32, "wood"⟩ ∧
        (∀ i, i ≠ (World.init (R := ℚ) none).self.m_loadedTextures →
          w2.self.m_textureIDs[i]? = (World.init (R := ℚ) none).self.m_textureIDs[i]?) ∧
        RegistryOK w2.self) ∧
      (b = false → w2.self = (World.init none).self)) ∧
    (CreateGLTexture sampleEnv "wood.jpg" "wood" (World.init none)).map
      (fun r => (r.1, r.2.self.m_loadedTextures, r.2.self.m_textureIDs[0]?))
      = .ok (true, 1, some ⟨1, "wood"⟩) ∧
    (CreateGLTexture sampleEnv "missing.jpg" "wood" (World.init none)).map
      (fun r => (r.1, r.2.self.m_loadedTextures, r.2.self.m_textureIDs[0]?))
      = .ok (false, 0, some ⟨0, ""⟩) ∧
    (CreateGLTexture sampleEnv "gray.png" "wood" (World.init none)).map
      (fun r => (r.1, r.2.self.m_loadedTextures, r.2.self.m_textureIDs[0]?))
      = .ok (false, 0, some ⟨0, ""⟩) :=
  ⟨by decide, by decide,
    CreateGLTexture_registers sampleEnv "wood.jpg" "wood" (World.init none) (by decide)
      (by decide),
    by decide, by decide, by decide⟩

theorem bindCallsFrom_length (st : SceneManager R) :
    ∀ n i, (bindCallsFrom st n i).length = 2 * n := by
  intro n
  induction n with
  | zero => intro i; rfl
  | succ k ih =>
    intro i
    simp only [bindCallsFrom, List.length_append, ih, List.length_cons, List.length_nil]
    omega

theorem bindCallsFrom_get (st : SceneManager R) :
    ∀ n i k, k < n →
      (bindCallsFrom st n i)[2 * k]? = some (.glActiveTexture (GL_TEXTURE0 + (i + k))) ∧
      (bindCallsFrom st n i)[2 * k + 1]? =
        some (.glBindTexture GL_TEXTURE_2D (st.m_textureIDs.getD (i + k) ⟨0, ""⟩).ID) := by
  intro n
  induction n with
  | zero => intro i k hk; omega
  | succ m ih =>
    intro i k hk
    cases k with
    | zero => simp [bindCallsFrom]
    | succ j =>
      have h := ih (i + 1) j (by omega)
      have e1 : 2 * (j + 1) = (2 * j) + 1 + 1 := by omega
      have e3 : i + (j + 1) = i + 1 + j := by omega
      rw [e1, e3]
      simpa [bindCallsFrom] using h

theorem BindGLTextures_loop_eq (st : SceneManager R)
    (hcap : st.m_loadedTextures ≤ st.m_textureIDs.length) :
    ∀ budget i (w : World R), w.self = st → i ≤ st.m_loadedTextures →
      st.m_loadedTextures - i < budget →
      BindGLTextures.loop budget i w
        = .ok (w.emit (bindCallsFrom st (st.m_loadedTextures - i) i)) := by
  intro budget
  induction budget with
  | zero => intro i w _ _ h; omega
  | succ b ih =>
    intro i w hw hle hb
    unfold BindGLTextures.loop
    rw [hw]
    by_cases hlt : i < st.m_loadedTextures
    · have hlen : i < st.m_textureIDs.length := by omega
      have hget : st.m_textureIDs[i]? = some st.m_textureIDs[i] :=
        List.getElem?_eq_getElem hlen
      have hsplit : st.m_loadedTextures - i = (st.m_loadedTextures - (i + 1)) + 1 := by omega
      simp only [hlt, if_true, hget]
      rw [ih (i + 1) _ (by simpa using hw) (by omega) (by omega), emit_emit, hsplit]
      simp [bindCallsFrom, List.getD_eq_getElem?_getD, hget]
    · have hz : st.m_loadedTextures - i = 0 := by omega
      simp [hlt, hz, bindCallsFrom, emit_nil]

/-- The method `BindGLTextures` binds the registered handles to the units
`GL_TEXTURE0 + 0`, `GL_TEXTURE0 + 1`, ... in registration order. -/
theorem BindGLTextures_eq (w : World R)
    (hcap : w.self.m_loadedTextures ≤ w.self.m_textureIDs.length) :
    BindGLTextures w = .ok (w.emit (bindCallsFrom w.self w.self.m_loadedTextures 0)) := by
  unfold BindGLTextures
  rw [BindGLTextures_loop_eq w.self hcap _ 0 w rfl (Nat.zero_le _) (by omega)]
  simp

/-- C4, counterexample: the driver hands out the name 4294967295; the load
succeeds and stores that handle at slot 0, `FindTextureSlot` returns 0, and
`FindTextureID` returns -1, not the handle bound to unit 0. -/
theorem CreateGLTexture_then_FindTextureID_wraps :
    (do
      let (b, w) ← CreateGLTexture envMaxHandle "wood.jpg" "wood" (World.init (some ⟨1⟩))
      let s ← FindTextureSlot w.self "wood"
      let h ← FindTextureID w.self "wood"
      pure (b, s, w.self.m_textureIDs[0]?, h, decide (h = ((4294967295 : Nat) : Int))))
    = (.ok (true, 0, some ⟨4294967295, "wood"⟩, -1, false) :
        Except Fault (Bool × Int × Option TEXTURE_INFO × Int × Bool)) := by
  decide

/-- C4, amended. On every registry with fewer than 16 entries, after a successful
`CreateGLTexture(path, tag)` of a decodable 3- or 4-channel image,
`FindTextureSlot(tag)` returns a slot `s >= 0` of the registry, `FindTextureID(tag)`
returns the handle stored at index `s` converted from `GLuint` to `int` (the
handle itself when it is below 2^31), and the following `BindGLTextures` binds
that handle to the texture unit `GL_TEXTURE0 + s`; this holds also when the tag
was registered before. -/
theorem CreateGLTexture_then_lookup (env : Env R) (filename tag : String) (w : World R)
    (image : Image) (hok : RegistryOK w.self) (hroom : w.self.m_loadedTextures < MAX_TEXTURES)
    (hload : env.stbi_load filename = some image)
    (hch : image.colorChannels = 3 ∨ image.colorChannels = 4) :
    ∃ (w2 : World R) (s : Nat) (e : TEXTURE_INFO) (w3 : World R) (calls : List (Event R)),
      CreateGLTexture env filename tag w = .ok (true, w2) ∧
      FindTextureSlot w2.self tag = .ok (s : Int) ∧
      s < w2.self.m_loadedTextures ∧ w2.self.m_textureIDs[s]? = some e ∧ e.tag = tag ∧
      FindTextureID w2.self tag = .ok (GLuint_to_int e.ID) ∧
      (e.ID < 2 ^ 31 → FindTextureID w2.self tag = .ok (e.ID : Int)) ∧
      BindGLTextures w2 = .ok w3 ∧ w3.self = w2.self ∧ w3.trace = w2.trace ++ calls ∧
      calls.length = 2 * w2.self.m_loadedTextures ∧
      calls[2 * s]? = some (.glActiveTexture (GL_TEXTURE0 + s)) ∧
      calls[2 * s + 1]? = some (.glBindTexture GL_TEXTURE_2D e.ID) := by
  have hlen : w.self.m_loadedTextures < w.self.m_textureIDs.length := by
    rw [hok.1]; exact hroom
  rcases CreateGLTexture_cases env filename tag w hlen with
    ⟨hnone, _⟩ | ⟨im, hsome, hnot, _⟩ | ⟨_, _, _, w2, hrun, hself, _⟩
  · rw [hnone] at hload
    cases hload
  · rw [hsome] at hload
    cases hload
    exact absurd hch hnot
  have hcount : w2.self.m_loadedTextures = w.self.m_loadedTextures + 1 := by rw [hself]
  have hnew : w2.self.m_textureIDs[w.self.m_loadedTextures]? =
      some ⟨env.glGenTextures w.genCalls % 2 ^ 32, tag⟩ := by
    rw [hself]
    simp [List.getElem?_set, hlen]
  have hok2 : RegistryOK w2.self := by
    rw [hself]
    exact ⟨by simp [hok.1], hroom⟩
  have hcap2 : w2.self.m_loadedTextures ≤ w2.self.m_textureIDs.length := by
    rw [hok2.1]; exact hok2.2
  -- the new entry carries the tag, so the scans cannot come back empty-handed
  have hsome : ¬ NoTagBelow w2.self tag w2.self.m_loadedTextures := by
    intro hno
    exact hno w.self.m_loadedTextures (by omega) _ hnew rfl
  rcases FindTextureSlot_loop_spec w2.self tag hcap2 (w2.self.m_loadedTextures + 2) 0
    (Nat.zero_le _) (by omega) (NoTagBelow.zero _ tag) with ⟨s, e, hslot, hfirst⟩ | ⟨_, hno⟩
  swap
  · exact absurd hno hsome
  rcases FindTextureID_loop_spec w2.self tag hcap2 (w2.self.m_loadedTextures + 2) 0
    (Nat.zero_le _) (by omega) (NoTagBelow.zero _ tag) with ⟨s2, e2, hid, hfirst2⟩ | ⟨_, hno⟩
  swap
  · exact absurd hno hsome
  obtain ⟨_, rfl⟩ := hfirst.unique hfirst2
  obtain ⟨hslt, hget, htag, _⟩ := hfirst
  have hcalls := bindCallsFrom_get w2.self w2.self.m_loadedTextures 0 s hslt
  have hD : w2.self.m_textureIDs.getD s ⟨0, ""⟩ = e := by
    simp [List.getD_eq_getElem?_getD, hget]
  rw [Nat.zero_add, hD] at hcalls
  refine ⟨w2, s, e, _, bindCallsFrom w2.self w2.self.m_loadedTextures 0, hrun, hslot, hslt,
    hget, htag, hid, ?_, BindGLTextures_eq w2 hcap2, rfl, rfl, bindCallsFrom_length _ _ _,
    hcalls.1, hcalls.2⟩
  intro hsmall
  have hid2 : FindTextureID w2.self tag = .ok (GLuint_to_int e.ID) := hid
  rw [hid2, GLuint_to_int_small hsmall]

/-- C4, witness: the tag b, registered at slot 1 with handle 2, is registered a
second time; the theorem applies to the load, and both lookups still report
the first registration. -/
theorem CreateGLTexture_then_lookup_witness :
    RegistryOK sceneABC ∧ sceneABC.m_loadedTextures < MAX_TEXTURES ∧
    sampleEnv.stbi_load "b2.jpg" = some ⟨64, 64, 3⟩ ∧
    (∃ (w2 : World ℚ) (s : Nat) (e : TEXTURE_INFO) (w3 : World ℚ) (calls : List (Event ℚ)),
      CreateGLTexture sampleEnv "b2.jpg" "b" ⟨sceneABC, [], 3, 0⟩ = .ok (true, w2) ∧
      FindTextureSlot w2.self "b" = .ok (s : Int) ∧
      s < w2.self.m_loadedTextures ∧ w2.self.m_textureIDs[s]? = some e ∧ e.tag = "b" ∧
      FindTextureID w2.self "b" = .ok (GLuint_to_int e.ID) ∧
      (e.ID < 2 ^ 31 → FindTextureID w2.self "b" = .ok (e.ID : Int)) ∧
      BindGLTextures w2 = .ok w3 ∧ w3.self = w2.self ∧ w3.trace = w2.trace ++ calls ∧
      calls.length = 2 * w2.self.m_loadedTextures ∧
      calls[2 * s]? = some (.glActiveTexture (GL_TEXTURE0 + s)) ∧
      calls[2 * s + 1]? = some (.glBindTexture GL_TEXTURE_2D e.ID)) ∧
    (do
      let (b, w) ← CreateGLTexture sampleEnv "b2.jpg" "b" ⟨sceneABC, [], 3, 0⟩
      let s ← FindTextureSlot w.self "b"
      let h ← FindTextureID w.self "b"
      pure (b, w.self.m_loadedTextures, w.self.m_textureIDs[3]?, s, h))
    = (.ok (true, 4, some ⟨4, "b"⟩, 1, 2) :
        Except Fault (Bool × Nat × Option TEXTURE_INFO × Int × Int)) :=
  ⟨by decide, by decide, by decide,
    CreateGLTexture_then_lookup sampleEnv "b2.jpg" "b" ⟨sceneABC, [], 3, 0⟩ ⟨64, 64, 3⟩
      (by decide) (by decide) (by decide) (by decide), by decide⟩

/-- C6, failing input: from the constructor state, sixteen successful loads fill
the array (count 16), and the seventeenth writes `m_textureIDs[16]`, outside the
array of 16 elements. -/
theorem CreateGLTexture_seventeenth_overflows :
    (CreateGLTexture.times sampleEnv "wood.jpg" "wood" 16 (World.init none)).map
      (fun w => (w.self.m_loadedTextures, w.self.m_textureIDs.length)) = .ok (16, 16) ∧
    (CreateGLTexture.times sampleEnv "wood.jpg" "wood" 17 (World.init none)).map
      (fun w => w.self.m_loadedTextures) = .error .outOfBounds := by
  decide

/-! ### Shader state pusher -/

theorem SetTransformations_null [Field R] (fm : glm.FloatMath R) (scaleXYZ : glm.vec3 R)
    (x y z : R) (positionXYZ : glm.vec3 R) (w : World R) (h : w.self.m_pShaderManager = none) :
    SetTransformations fm scaleXYZ x y z positionXYZ w = .ok w := by
  simp [SetTransformations, h]

theorem SetShaderColor_null (r g b a : R) (w : World R) (h : w.self.m_pShaderManager = none) :
    SetShaderColor r g b a w = .ok w := by
  simp [SetShaderColor, h]

theorem SetShaderTexture_null (textureTag : String) (w : World R)
    (h : w.self.m_pShaderManager = none) : SetShaderTexture textureTag w = .ok w := by
  simp [SetShaderTexture, h]

theorem SetTextureUVScale_null (u v : R) (w : World R) (h : w.self.m_pShaderManager = none) :
    SetTextureUVScale u v w = .ok w := by
  simp [SetTextureUVScale, h]

theorem viaShaderManager_null (call : Event R) (w : World R)
    (h : w.self.m_pShaderManager = none) :
    viaShaderManager call w = .error .nullPointerDereference := by
  simp [viaShaderManager, h]

theorem viaShaderManager_bound (call : Event R) (w : World R) (sm : ShaderManager)
    (h : w.self.m_pShaderManager = some sm) :
    viaShaderManager call w = .ok (w.emit [call]) := by
  simp [viaShaderManager, h]

/-- With a NULL shader manager and a non-empty catalog `SetShaderMaterial` calls
through the NULL pointer. -/
theorem SetShaderMaterial_null (env : Env R) (materialTag : String) (w : World R)
    (h : w.self.m_pShaderManager = none) (hcat : w.self.m_objectMaterials ≠ []) :
    SetShaderMaterial env materialTag w = .error .nullPointerDereference := by
  have hlen : w.self.m_objectMaterials.length ≠ 0 := by
    intro h0
    exact hcat (List.length_eq_zero.mp h0)
  have hpos : w.self.m_objectMaterials.length > 0 := Nat.pos_of_ne_zero hlen
  simp [SetShaderMaterial, hpos, FindMaterial_eq, hlen, bind, Except.bind, viaShaderManager, h]

/-- C5, failing input: with `m_pShaderManager` NULL the four guarded setters do
nothing, but `SetShaderMaterial` (on a non-empty catalog) and `SetupSceneLights`
call through the NULL pointer. -/
theorem SetShaderMaterial_SetupSceneLights_null_dereference :
    SetTransformations sampleEnv.fm ⟨1, 1, 1⟩ 0 0 0 ⟨2, 0, 0⟩ worldNullShader
      = .ok worldNullShader ∧
    SetShaderColor 1 0 0 1 worldNullShader = .ok worldNullShader ∧
    SetShaderTexture "knife_handle" worldNullShader = .ok worldNullShader ∧
    SetTextureUVScale 1 1 worldNullShader = .ok worldNullShader ∧
    SetShaderMaterial sampleEnv "default" worldNullShader = .error .nullPointerDereference ∧
    SetupSceneLights worldNullShader = .error .nullPointerDereference :=
  ⟨rfl, rfl, rfl, rfl, rfl, rfl⟩

/-! ### The model matrix -/

theorem rotate_zero_X :
    glm.rotate ⟨Real.cos, Real.sin, Real.sqrt⟩ (glm.radians 0) ⟨1, 0, 0⟩ = (1 : glm.mat4 ℝ) := by
  ext i j
  fin_cases i <;> fin_cases j <;>
    simp [glm.rotate, glm.radians, glm.normalize, glm.inversesqrt, glm.dot] <;> rfl

theorem rotate_zero_Y :
    glm.rotate ⟨Real.cos, Real.sin, Real.sqrt⟩ (glm.radians 0) ⟨0, 1, 0⟩ = (1 : glm.mat4 ℝ) := by
  ext i j
  fin_cases i <;> fin_cases j <;>
    simp [glm.rotate, glm.radians, glm.normalize, glm.inversesqrt, glm.dot] <;> rfl

theorem rotate_zero_Z :
    glm.rotate ⟨Real.cos, Real.sin, Real.sqrt⟩ (glm.radians 0) ⟨0, 0, 1⟩ = (1 : glm.mat4 ℝ) := by
  ext i j
  fin_cases i <;> fin_cases j <;>
    simp [glm.rotate, glm.radians, glm.normalize, glm.inversesqrt, glm.dot] <;> rfl

theorem scale_one : glm.scale ⟨1, 1, 1⟩ = (1 : glm.mat4 ℝ) := by
  ext i j
  fin_cases i <;> fin_cases j <;> simp [glm.scale] <;> rfl

/-- C9. Over the real numbers, with a shader bound, `SetTransformations` with
scale (1,1,1), rotations of 0 degrees and position p pushes as the uniform
`model` the product translation * rotationZ * rotationY * rotationX * scale, and
that product is the translation matrix by p. -/
theorem SetTransformations_pure_translation (p : glm.vec3 ℝ) (w : World ℝ) (sm : ShaderManager)
    (h : w.self.m_pShaderManager = some sm) :
    SetTransformations ⟨Real.cos, Real.sin, Real.sqrt⟩ ⟨1, 1, 1⟩ 0 0 0 p w
      = .ok (w.emit [.setMat4Value "model"
          (glm.translate p
            * glm.rotate ⟨Real.cos, Real.sin, Real.sqrt⟩ (glm.radians 0) ⟨0, 0, 1⟩
            * glm.rotate ⟨Real.cos, Real.sin, Real.sqrt⟩ (glm.radians 0) ⟨0, 1, 0⟩
            * glm.rotate ⟨Real.cos, Real.sin, Real.sqrt⟩ (glm.radians 0) ⟨1, 0, 0⟩
            * glm.scale ⟨1, 1, 1⟩)]) ∧
    glm.translate p
        * glm.rotate ⟨Real.cos, Real.sin, Real.sqrt⟩ (glm.radians 0) ⟨0, 0, 1⟩
        * glm.rotate ⟨Real.cos, Real.sin, Real.sqrt⟩ (glm.radians 0) ⟨0, 1, 0⟩
        * glm.rotate ⟨Real.cos, Real.sin, Real.sqrt⟩ (glm.radians 0) ⟨1, 0, 0⟩
        * glm.scale ⟨1, 1, 1⟩
      = !![1, 0, 0, p.x;
           0, 1, 0, p.y;
           0, 0, 1, p.z;
           0, 0, 0, 1] := by
  constructor
  · simp [SetTransformations, h, viaShaderManager, g_ModelName]
  · rw [rotate_zero_X, rotate_zero_Y, rotate_zero_Z, scale_one]
    simp [glm.translate]

/-- C9, witness: the position (2,0,0). -/
theorem SetTransformations_pure_translation_witness :
    SetTransformations ⟨Real.cos, Real.sin, Real.sqrt⟩ ⟨1, 1, 1⟩ 0 0 0 ⟨2, 0, 0⟩
        (⟨⟨some ⟨1⟩, [], 0, []⟩, [], 0, 0⟩ : World ℝ)
      = .ok ((⟨⟨some ⟨1⟩, [], 0, []⟩, [], 0, 0⟩ : World ℝ).emit [.setMat4Value "model"
          (glm.translate ⟨2, 0, 0⟩
            * glm.rotate ⟨Real.cos, Real.sin, Real.sqrt⟩ (glm.radians 0) ⟨0, 0, 1⟩
            * glm.rotate ⟨Real.cos, Real.sin, Real.sqrt⟩ (glm.radians 0) ⟨0, 1, 0⟩
            * glm.rotate ⟨Real.cos, Real.sin, Real.sqrt⟩ (glm.radians 0) ⟨1, 0, 0⟩
            * glm.scale ⟨1, 1, 1⟩)]) ∧
    glm.translate (⟨2, 0, 0⟩ : glm.vec3 ℝ)
        * glm.rotate ⟨Real.cos, Real.sin, Real.sqrt⟩ (glm.radians 0) ⟨0, 0, 1⟩
        * glm.rotate ⟨Real.cos, Real.sin, Real.sqrt⟩ (glm.radians 0) ⟨0, 1, 0⟩
        * glm.rotate ⟨Real.cos, Real.sin, Real.sqrt⟩ (glm.radians 0) ⟨1, 0, 0⟩
        * glm.scale ⟨1, 1, 1⟩
      = !![1, 0, 0, 2;
           0, 1, 0, 0;
           0, 0, 1, 0;
           0, 0, 0, 1] :=
  SetTransformations_pure_translation ⟨2, 0, 0⟩ ⟨⟨some ⟨1⟩, [], 0, []⟩, [], 0, 0⟩ ⟨1⟩ rfl

/-! ### Rendering -/

theorem emits_viaShaderManager {st : SceneManager R} {sm : ShaderManager}
    (hsm : st.m_pShaderManager = some sm) (call : Event R) :
    Emits (viaShaderManager call) st [call] := by
  intro w hw
  subst hw
  exact ⟨w.emit [call], viaShaderManager_bound call w sm hsm, rfl, rfl⟩

theorem emits_viaBasicMeshes [Field R] (st : SceneManager R) (call : Event R) :
    Emits (viaBasicMeshes call) st [call] := by
  intro w hw
  exact ⟨w.emit [call], rfl, hw, rfl⟩

theorem emits_SetTransformations [Field R] {st : SceneManager R} {sm : ShaderManager}
    (hsm : st.m_pShaderManager = some sm) (fm : glm.FloatMath R) (s : glm.vec3 R) (x y z : R)
    (p : glm.vec3 R) :
    Emits (SetTransformations fm s x y z p) st
      [.setMat4Value g_ModelName (glm.translate p * glm.rotate fm (glm.radians z) ⟨0, 0, 1⟩
        * glm.rotate fm (glm.radians y) ⟨0, 1, 0⟩ * glm.rotate fm (glm.radians x) ⟨1, 0, 0⟩
        * glm.scale s)] := by
  intro w hw
  subst hw
  refine ⟨w.emit [.setMat4Value g_ModelName (glm.translate p
    * glm.rotate fm (glm.radians z) ⟨0, 0, 1⟩ * glm.rotate fm (glm.radians y) ⟨0, 1, 0⟩
    * glm.rotate fm (glm.radians x) ⟨1, 0, 0⟩ * glm.scale s)], ?_, rfl, rfl⟩
  simp [SceneManager.SetTransformations, hsm, SceneManager.viaShaderManager]

theorem emits_SetShaderColor {st : SceneManager R} {sm : ShaderManager}
    (hsm : st.m_pShaderManager = some sm) (r g b a : R) :
    Emits (SetShaderColor r g b a) st
      [.setIntValue g_UseTextureName 0, .setVec4Value g_ColorValueName ⟨r, g, b, a⟩] := by
  intro w hw
  subst hw
  refine ⟨(w.emit [.setIntValue g_UseTextureName 0]).emit
    [.setVec4Value g_ColorValueName ⟨r, g, b, a⟩], ?_, rfl, ?_⟩
  · simp [SceneManager.SetShaderColor, hsm, SceneManager.viaShaderManager, Bind.bind,
      Except.bind]
  · simp

theorem emits_SetShaderTexture {st : SceneManager R} {sm : ShaderManager}
    (hsm : st.m_pShaderManager = some sm) (textureTag : String) (slot : Int)
    (hslot : FindTextureSlot st textureTag = .ok slot) :
    Emits (SetShaderTexture textureTag) st
      [.setIntValue g_UseTextureName 1, .setSampler2DValue g_TextureValueName slot] := by
  intro w hw
  subst hw
  refine ⟨(w.emit [.setIntValue g_UseTextureName 1]).emit
    [.setSampler2DValue g_TextureValueName slot], ?_, rfl, ?_⟩
  · simp [SceneManager.SetShaderTexture, hsm, SceneManager.viaShaderManager, Bind.bind,
      Except.bind, hslot]
  · simp

theorem emits_SetTextureUVScale {st : SceneManager R} {sm : ShaderManager}
    (hsm : st.m_pShaderManager = some sm) (u v : R) :
    Emits (SetTextureUVScale u v) st [.setVec2Value g_UVScaleName ⟨u, v⟩] := by
  intro w hw
  subst hw
  refine ⟨w.emit [.setVec2Value g_UVScaleName ⟨u, v⟩], ?_, rfl, rfl⟩
  simp [SceneManager.SetTextureUVScale, hsm, SceneManager.viaShaderManager]

theorem drawn_append (a b : List (Event R)) : drawn (a ++ b) = drawn a ++ drawn b := by
  simp [drawn, List.filterMap_append]

/-- Every catalog `DefineObjectMaterials` has written to holds an entry tagged default. -/
theorem DefineObjectMaterials_has_default [Field R] (w w2 : World R)
    (h : DefineObjectMaterials w = .ok w2) :
    ∃ m, m ∈ w2.self.m_objectMaterials ∧ m.tag = "default" := by
  rw [DefineObjectMaterials_eq] at h
  cases h
  exact ⟨defaultMaterial, by simp, rfl⟩

/-- A successful `CreateGLTexture` does not touch the shader manager pointer or
the catalog. -/
theorem CreateGLTexture_keeps (env : Env R) (filename tag : String) (w w2 : World R) (b : Bool)
    (h : CreateGLTexture env filename tag w = .ok (b, w2)) :
    w2.self.m_pShaderManager = w.self.m_pShaderManager ∧
      w2.self.m_objectMaterials = w.self.m_objectMaterials := by
  by_cases hroom : w.self.m_loadedTextures < w.self.m_textureIDs.length
  · rcases CreateGLTexture_cases env filename tag w hroom with
      ⟨_, w3, hrun, hself, _⟩ | ⟨_, _, _, w3, hrun, hself, _⟩ | ⟨_, _, _, w3, hrun, hself, _⟩
    · rw [hrun] at h
      cases h
      rw [hself]
      exact ⟨rfl, rfl⟩
    · rw [hrun] at h
      cases h
      rw [hself]
      exact ⟨rfl, rfl⟩
    · rw [hrun] at h
      cases h
      rw [hself]
      exact ⟨rfl, rfl⟩
  · unfold CreateGLTexture at h
    cases hload : env.stbi_load filename with
    | none =>
      simp only [hload] at h
      cases h
      exact ⟨rfl, rfl⟩
    | some image =>
      simp only [hload, emit_self, hroom, if_false] at h
      by_cases h3 : image.colorChannels = 3
      · simp [h3] at h
      · by_cases h4 : image.colorChannels = 4
        · simp [h4] at h
        · simp only [h3, h4, if_false] at h
          cases h
          exact ⟨rfl, rfl⟩

/-- On a catalog that no method of the class can produce (non-empty, without
the tag default) the model lets the values pushed by `SetShaderMaterial` follow
the uninitialised local: with the sample answers the two calls write 0, 1 and
then 2, 3 as shininess. -/
theorem RenderScene_on_unprepared_catalog :
    (do
      let w1 ← RenderScene sampleEnv worldGoldOnly
      let w2 ← RenderScene sampleEnv w1
      pure (floatWrites "material.shininess" (w1.trace.drop worldGoldOnly.trace.length),
        floatWrites "material.shininess" (w2.trace.drop w1.trace.length)))
    = (.ok ([0, 1], [2, 3]) : Except Fault (List ℚ × List ℚ)) := by
  decide

theorem draws_of_emits {f : World R → Except Fault (World R)} {st : SceneManager R}
    {evs : List (Event R)} (h : Emits f st evs) : Draws f st (drawn evs) := by
  intro w hw
  obtain ⟨w2, h1, h2, h3⟩ := h w hw
  exact ⟨w2, evs, h1, h2, h3, rfl⟩

theorem draws_bind {f g : World R → Except Fault (World R)} {st : SceneManager R}
    {a b : List Mesh} (hf : Draws f st a) (hg : Draws g st b) :
    Draws (fun w => f w >>= g) st (a ++ b) := by
  intro w hw
  obtain ⟨w1, e1, h1, hs1, ht1, hd1⟩ := hf w hw
  obtain ⟨w2, e2, h2, hs2, ht2, hd2⟩ := hg w1 hs1
  refine ⟨w2, e1 ++ e2, ?_, hs2, ?_, ?_⟩
  · simp only [h1, Bind.bind, Except.bind]
    exact h2
  · rw [ht2, ht1, List.append_assoc]
  · rw [drawn_append, hd1, hd2]

/-- With a shader bound `SetShaderMaterial` succeeds on every catalog, leaves
the object alone and draws nothing. -/
theorem draws_SetShaderMaterial {st : SceneManager R} {sm : ShaderManager}
    (hsm : st.m_pShaderManager = some sm) (env : Env R) (materialTag : String) :
    Draws (SetShaderMaterial env materialTag) st [] := by
  intro w hw
  subst hw
  by_cases hlen : w.self.m_objectMaterials.length = 0
  · refine ⟨w, [], ?_, rfl, by simp, rfl⟩
    simp [SceneManager.SetShaderMaterial, hlen]
  · have hpos : w.self.m_objectMaterials.length > 0 := Nat.pos_of_ne_zero hlen
    refine ⟨({ w with locals := w.locals + 1 } : World R).emit
      (materialCalls (scanFrom w.self materialTag 0
        { env.indeterminate w.locals with tag := "" })), _, ?_, rfl, rfl, rfl⟩
    simp [SceneManager.SetShaderMaterial, hpos, FindMaterial_eq, hlen, Bind.bind, Except.bind,
      SceneManager.viaShaderManager, hsm, materialCalls, World.emit]

/-- With a bound shader and a registry that fits its array, on every catalog,
`RenderScene` succeeds, leaves the object (registry and catalog included)
unchanged and draws plane, sphere, sphere, sphere, cylinder. -/
theorem RenderScene_draws [Field R] (env : Env R) (st : SceneManager R) (sm : ShaderManager)
    (hsm : st.m_pShaderManager = some sm)
    (hcap : st.m_loadedTextures ≤ st.m_textureIDs.length) :
    Draws (RenderScene env) st [.plane, .sphere, .sphere, .sphere, .cylinder] := by
  obtain ⟨slot, hslot⟩ := FindTextureSlot_ok st "knife_handle" hcap
  exact
    draws_bind (draws_of_emits (emits_viaShaderManager hsm (.setVec3Value g_ViewPosName ⟨0.0, 0.0, 3.0⟩))) (
    draws_bind (draws_of_emits (emits_SetTransformations hsm env.fm ⟨20.0, 1.0, 10.0⟩ 0.0 0.0 0.0 ⟨0.0, 0.0, 0.0⟩)) (
    draws_bind (draws_SetShaderMaterial hsm env "default") (
    draws_bind (draws_of_emits (emits_SetShaderTexture hsm "knife_handle" slot hslot)) (
    draws_bind (draws_of_emits (emits_SetTextureUVScale hsm 1.0 1.0)) (
    draws_bind (draws_of_emits (emits_viaBasicMeshes st (.DrawMesh .plane))) (
    draws_bind (draws_of_emits (emits_SetTransformations hsm env.fm ⟨2.0, 1.0, 2.0⟩ 0.0 0.0 0.0 ⟨0.0, 1.0, 0.0⟩)) (
    draws_bind (draws_SetShaderMaterial hsm env "default") (
    draws_bind (draws_of_emits (emits_SetShaderTexture hsm "knife_handle" slot hslot)) (
    draws_bind (draws_of_emits (emits_SetTextureUVScale hsm 1.0 1.0)) (
    draws_bind (draws_of_emits (emits_viaBasicMeshes st (.DrawMesh .sphere))) (
    draws_bind (draws_of_emits (emits_SetTransformations hsm env.fm ⟨0.5, 0.5, 0.5⟩ 0.0 0.0 0.0 ⟨-0.5, 2.0, 0.0⟩)) (
    draws_bind (draws_of_emits (emits_SetShaderColor hsm 1.0 0.0 0.0 1.0)) (
    draws_bind (draws_of_emits (emits_viaBasicMeshes st (.DrawMesh .sphere))) (
    draws_bind (draws_of_emits (emits_SetTransformations hsm env.fm ⟨0.6, 0.6, 0.6⟩ 0.0 0.0 0.0 ⟨0.5, 2.0, 0.5⟩)) (
    draws_bind (draws_of_emits (emits_SetShaderColor hsm 1.0 0.5 0.0 1.0)) (
    draws_bind (draws_of_emits (emits_viaBasicMeshes st (.DrawMesh .sphere))) (
    draws_bind (draws_of_emits (emits_SetTransformations hsm env.fm ⟨0.3, 0.3, 1.2⟩ 90.0 0.0 45.0 ⟨0.0, 2.0, -0.5⟩)) (
    draws_bind (draws_of_emits (emits_SetShaderColor hsm 1.0 1.0 0.0 1.0)) (
    (draws_of_emits (emits_viaBasicMeshes st (.DrawMesh .cylinder))))))))))))))))))))))

end SceneManager
